import Mathlib

/-
Verification of the HP_TI honeypot platform core against its specification.

The Python sources under src/honeypot/services and src/threat_intel/correlators
are shallowly embedded below.  Protocol text is modelled as Lean String values;
raw socket bytes are modelled as lists of byte values (Nat).  Wall-clock
timestamps (datetime.utcnow().isoformat()) are environment inputs and are passed
to the handlers as plain strings.  Python dictionaries holding per-session data
are modelled as structures whose optional entries are Option-valued fields.
-/

set_option linter.unusedVariables false

namespace HPTI

/-! ## Python string primitives used by the honeypot code -/

/-- Python substring test `needle in hay` on character lists. -/
def subOf (needle : List Char) : List Char → Bool
  | [] => needle.isEmpty
  | c :: t => needle.isPrefixOf (c :: t) || subOf needle t

/-- Python substring test `needle in hay` for strings. -/
def containsSub (needle hay : String) : Bool :=
  subOf needle.toList hay.toList

/-- Python str.lower restricted to ASCII (all protocol text here is ASCII). -/
def toLowerStr (s : String) : String := ⟨s.toList.map Char.toLower⟩

/-- Python str.upper restricted to ASCII. -/
def toUpperStr (s : String) : String := ⟨s.toList.map Char.toUpper⟩

/-- Python str.startswith. -/
def startsWithStr (pre s : String) : Bool := pre.toList.isPrefixOf s.toList

/-- Python s[:n]. -/
def takeStr (n : Nat) (s : String) : String := ⟨s.toList.take n⟩

/-- Python str.strip on a character list. -/
def stripList (l : List Char) : List Char :=
  ((l.dropWhile Char.isWhitespace).reverse.dropWhile Char.isWhitespace).reverse

/-- Python str.strip. -/
def pyStrip (s : String) : String := ⟨stripList s.toList⟩

/-- Python str.split(None, 1): split on the first whitespace run, at most two
parts, empty result for an all-whitespace string. -/
def splitWs1 (s : String) : List String :=
  let l := s.toList.dropWhile Char.isWhitespace
  match l.takeWhile (fun c => !c.isWhitespace),
        (l.dropWhile (fun c => !c.isWhitespace)).dropWhile Char.isWhitespace with
  | [], _ => []
  | tok, [] => [⟨tok⟩]
  | tok, rest => [⟨tok⟩, ⟨rest⟩]

/-- Python truthiness of an optional string (None and the empty string are
falsy). -/
def truthyOpt : Option String → Bool
  | none => false
  | some s => s ≠ ""

/-- First-occurrence deduplication; models the size and membership behaviour of
a Python set built by iterating a list (set iteration order is not relied on
anywhere below except through lengths and membership). -/
def dedupFirst {α : Type} [DecidableEq α] (l : List α) : List α :=
  l.foldl (fun acc a => if a ∈ acc then acc else acc ++ [a]) []

/-! ## Shared auth-attempt record

One structure models the per-protocol auth-attempt dictionaries: the SSH
password dict has keys timestamp/username/password/method/success, the SSH
publickey dict has timestamp/username/method/key_type/key_fingerprint/success,
and the Telnet and FTP dicts have timestamp/username/password/success.  A dict
key that a given protocol does not set is the `none` value of the Option field,
matching what dict.get returns for it. -/

structure AuthAttempt where
  timestamp : Option String := none
  username : Option String := none
  password : Option String := none
  method : Option String := none
  key_type : Option String := none
  key_fingerprint : Option String := none
  success : Bool := false
deriving DecidableEq, Repr

/-! ## FTP honeypot (src/honeypot/services/ftp_honeypot.py) -/

namespace FTP

/-- One entry of session["commands"] (timestamp, command, argument). -/
structure CommandRec where
  timestamp : String
  command : String
  argument : String
deriving DecidableEq, Repr

/-- The per-session dict created in FTPHoneypot._handle_connection; the
"username" key is initialized to None, which in this embedding is the `none`
field value. -/
structure Session where
  username : Option String := none
  authenticated : Bool := false
  auth_attempts : List AuthAttempt := []
  commands : List CommandRec := []
deriving DecidableEq, Repr

def Session.init : Session := {}

def RESPONSE_220 : String := "220 FTP Server ready\r\n"
def RESPONSE_331 : String := "331 Password required\r\n"
def RESPONSE_530 : String := "530 Login incorrect\r\n"
def RESPONSE_200 : String := "200 Command okay\r\n"
def RESPONSE_215 : String := "215 UNIX Type: L8\r\n"
def RESPONSE_221 : String := "221 Goodbye\r\n"
def RESPONSE_250 : String := "250 Requested file action okay\r\n"
def RESPONSE_257 : String := "257 \"/\" is current directory\r\n"
def RESPONSE_500 : String := "500 Command not understood\r\n"
def RESPONSE_502 : String := "502 Command not implemented\r\n"
def RESPONSE_550 : String := "550 File not found\r\n"

/-- FTPHoneypot._handle_ftp_command.  In the source the PASS branch reads
`session.get("username", "anonymous")`; since _handle_connection always
initializes the "username" key (to None), that .get returns the stored value
and the "anonymous" default is dead, so the recorded username is exactly the
session field. -/
def handle_ftp_command (cmd arg now : String) (s : Session) : Session × String :=
  if cmd = "USER" then ({ s with username := some arg }, RESPONSE_331)
  else if cmd = "PASS" then
    ({ s with auth_attempts := s.auth_attempts ++
        [{ timestamp := some now, username := s.username,
           password := some arg, success := false }] }, RESPONSE_530)
  else if cmd = "SYST" then (s, RESPONSE_215)
  else if cmd = "PWD" then (s, RESPONSE_257)
  else if cmd = "CWD" then (s, RESPONSE_250)
  else if cmd = "LIST" then (s, RESPONSE_502)
  else if cmd = "RETR" then (s, RESPONSE_550)
  else if cmd = "STOR" then (s, RESPONSE_550)
  else if cmd = "QUIT" then (s, RESPONSE_221)
  else if cmd = "TYPE" then (s, RESPONSE_200)
  else if cmd = "PORT" ∨ cmd = "PASV" then (s, RESPONSE_502)
  else (s, RESPONSE_500)

/-- FTPHoneypot._handle_commands.  Input is the sequence of _receive_line
results (`none` models the None returned on timeout or closed stream).  The
loop breaks when the received value is falsy (None or the empty string), skips
whitespace-only lines, records every parsed command before dispatch, and stops
after QUIT.  The returned list pairs each recorded command with the response
sent for it. -/
def handle_commands (now : String) : List (Option String) → Session →
    Session × List (CommandRec × String)
  | [], s => (s, [])
  | none :: _, s => (s, [])
  | some command :: rest, s =>
    if command = "" then (s, [])
    else
      let parts := splitWs1 (pyStrip command)
      if parts.isEmpty then handle_commands now rest s
      else
        let cmd := toUpperStr (parts.headD "")
        let arg := (parts.drop 1).headD ""
        let rec1 : CommandRec := ⟨now, cmd, arg⟩
        let s1 : Session := { s with commands := s.commands ++ [rec1] }
        let d := handle_ftp_command cmd arg now s1
        if cmd = "QUIT" then (d.1, [(rec1, d.2)])
        else
          let t := handle_commands now rest d.1
          (t.1, (rec1, d.2) :: t.2)

end FTP

/-! ## Telnet honeypot (src/honeypot/services/telnet_honeypot.py) -/

namespace Telnet

/-- One entry of session["commands"] (timestamp, command). -/
structure CommandRec where
  timestamp : String
  command : String
deriving DecidableEq, Repr

/-- The outcome of TelnetHoneypot._handle_authentication: the attempts recorded
on the session, the strings sent to the peer after the initial banner, the
_receive_line results that were never consumed, and the boolean return value. -/
structure AuthResult where
  attempts : List AuthAttempt
  sent : List String
  rest : List (Option String)
  allowed : Bool
deriving DecidableEq, Repr

/-- One _receive_line call against the remaining result stream; an exhausted
stream yields the None that _receive_line returns on timeout. -/
def read1 : List (Option String) → Option String × List (Option String)
  | [] => (none, [])
  | r :: rest => (r, rest)

/-- The body of TelnetHoneypot._handle_authentication, with the remaining
attempt budget (max_attempts - attempts) as fuel.  Reading a falsy value (None
for timeout or closed stream, or the empty line) returns False at once; a
completed username/password pair is recorded with success=False, answered with
"Login incorrect" and the banner, and the loop repeats; an exhausted budget
sends the final rejection and returns False. -/
def auth_loop (now banner : String) : Nat → List (Option String) → AuthResult
  | 0, reads => ⟨[], ["Too many login failures\r\n"], reads, false⟩
  | Nat.succ k, reads =>
    let u := read1 reads
    match u.1 with
    | none => ⟨[], [], u.2, false⟩
    | some username =>
      if username = "" then ⟨[], [], u.2, false⟩
      else
        let p := read1 u.2
        match p.1 with
        | none => ⟨[], ["Password: "], p.2, false⟩
        | some password =>
          if password = "" then ⟨[], ["Password: "], p.2, false⟩
          else
            let att : AuthAttempt :=
              { timestamp := some now, username := some username,
                password := some password, success := false }
            let r := auth_loop now banner k p.2
            ⟨att :: r.attempts,
             "Password: " :: "Login incorrect\r\n" :: banner :: r.sent,
             r.rest, r.allowed⟩

/-- TelnetHoneypot._handle_authentication (max_attempts = 3). -/
def handle_authentication (now banner : String)
    (reads : List (Option String)) : AuthResult :=
  auth_loop now banner 3 reads

/-- TelnetHoneypot.FAKE_RESPONSES. -/
def fake_responses : List (String × String) :=
  [("help", "Available commands: help, exit, reboot, status, config, show\r\n"),
   ("?", "Available commands: help, exit, reboot, status, config, show\r\n"),
   ("exit", "Goodbye\r\n"),
   ("quit", "Goodbye\r\n"),
   ("reboot", "System rebooting...\r\n"),
   ("status", "System Status: OK\r\nUptime: 45 days\r\nMemory: 128MB\r\n"),
   ("show", "Device Information\r\nModel: Generic IoT Device\r\nFirmware: 2.1.5\r\n"),
   ("config", "Configuration:\r\nIP: 192.168.1.1\r\nMask: 255.255.255.0\r\n"),
   ("ls", "bin  dev  etc  lib  proc  sbin  tmp  usr  var\r\n"),
   ("pwd", "/root\r\n"),
   ("whoami", "root\r\n"),
   ("id", "uid=0(root) gid=0(root) groups=0(root)\r\n")]

/-- Exact-match lookup in FAKE_RESPONSES. -/
def lookupResp (k : String) : Option String :=
  (fake_responses.find? (fun e => e.1 == k)).map (·.2)

/-- TelnetHoneypot._get_fake_response.  The final fallback indexes
command.split()[0]; callers only pass non-blank stripped commands, for which
the first token exists, modelled with headD. -/
def get_fake_response (command : String) : String :=
  let cmd_lower := toLowerStr (pyStrip command)
  match lookupResp cmd_lower with
  | some r => r
  | none =>
    if startsWithStr "cat " cmd_lower || startsWithStr "more " cmd_lower then
      "Permission denied\r\n"
    else if startsWithStr "cd " cmd_lower then ""
    else if startsWithStr "wget " cmd_lower || startsWithStr "curl " cmd_lower then
      "Command not found\r\n"
    else if startsWithStr "rm " cmd_lower || startsWithStr "del " cmd_lower then
      "Permission denied\r\n"
    else (splitWs1 command).headD "" ++ ": command not found\r\n"

/-- The loop body of TelnetHoneypot._handle_commands: breaks on a falsy read,
re-prompts on whitespace-only lines, records each stripped command, answers the
exit commands with Goodbye and stops, otherwise sends the fake response and the
prompt again. -/
def command_loop (now prompt : String) :
    List (Option String) → List CommandRec × List String
  | [] => ([], [])
  | none :: _ => ([], [])
  | some command0 :: rest =>
    if command0 = "" then ([], [])
    else
      let command := pyStrip command0
      if command = "" then
        let t := command_loop now prompt rest
        (t.1, prompt :: t.2)
      else
        let rec1 : CommandRec := ⟨now, command⟩
        if toLowerStr command = "exit" ∨ toLowerStr command = "quit" ∨
           toLowerStr command = "logout" then
          ([rec1], ["Goodbye\r\n"])
        else
          let t := command_loop now prompt rest
          (rec1 :: t.1, get_fake_response command :: prompt :: t.2)

/-- TelnetHoneypot._handle_commands (initial prompt, then the loop). -/
def handle_commands (now prompt : String) (reads : List (Option String)) :
    List CommandRec × List String :=
  let t := command_loop now prompt reads
  (t.1, prompt :: t.2)

/-- The auth_attempts and commands lists of the session dict after
TelnetHoneypot._handle_connection: the command phase runs only if
_handle_authentication returned True. -/
structure SessionRec where
  auth_attempts : List AuthAttempt
  commands : List CommandRec
deriving DecidableEq, Repr

/-- TelnetHoneypot._handle_connection, restricted to the session data it
accumulates from the read stream. -/
def handle_connection (now banner prompt : String)
    (reads : List (Option String)) : SessionRec :=
  let r := handle_authentication now banner reads
  if r.allowed then
    let t := handle_commands now prompt r.rest
    ⟨r.attempts, t.1⟩
  else ⟨r.attempts, []⟩

end Telnet

/-! ## SSH honeypot (src/honeypot/services/ssh_honeypot.py) -/

namespace SSH

/-- paramiko.AUTH_SUCCESSFUL. -/
def AUTH_SUCCESSFUL : Nat := 0

/-- paramiko.AUTH_FAILED. -/
def AUTH_FAILED : Nat := 2

/-- The mutable state of SSHServerInterface (its auth_attempts list). -/
structure ServerIface where
  auth_attempts : List AuthAttempt := []
deriving DecidableEq, Repr

/-- SSHServerInterface.check_auth_password: appends one record with
success=False and returns AUTH_FAILED, whatever the credentials. -/
def check_auth_password (st : ServerIface) (now username password : String) :
    ServerIface × Nat :=
  ({ auth_attempts := st.auth_attempts ++
      [{ timestamp := some now, username := some username,
         password := some password, method := some "password",
         success := false }] },
   AUTH_FAILED)

/-- SSHServerInterface.check_auth_publickey: appends one record (no password
key in the dict) with success=False and returns AUTH_FAILED. -/
def check_auth_publickey (st : ServerIface)
    (now username key_type key_fingerprint : String) : ServerIface × Nat :=
  ({ auth_attempts := st.auth_attempts ++
      [{ timestamp := some now, username := some username,
         method := some "publickey", key_type := some key_type,
         key_fingerprint := some key_fingerprint, success := false }] },
   AUTH_FAILED)

/-- The transport calling check_auth_password once per submitted password
credential pair, in submission order, collecting the returned auth codes. -/
def password_attempts (now : String) :
    List (String × String) → ServerIface → ServerIface × List Nat
  | [], st => (st, [])
  | (u, p) :: rest, st =>
    let c := check_auth_password st now u p
    let t := password_attempts now rest c.1
    (t.1, c.2 :: t.2)

end SSH

/-! ## Byte-level line readers (FTPHoneypot._receive_line and
TelnetHoneypot._receive_line)

A socket is modelled as the list of outcomes of successive sock.recv(1) calls:
a byte, a zero-length read (closed stream), or a timeout (socket.timeout is
raised and caught).  An exhausted event list behaves as a timeout, since a
silent peer eventually times the read out.  Returned lines are byte lists; the
final .decode("utf-8", errors="ignore") of the Python code is not modelled (it
can only shorten a byte sequence and the claims below are stated on bytes). -/

inductive Recv where
  | byte (b : Nat)
  | eof
  | timeout
deriving DecidableEq, Repr

/-- bytes.endswith(b"\r\n"). -/
def endsWithCRLF (l : List Nat) : Bool := [13, 10].isSuffixOf l

/-- The read loop of FTPHoneypot._receive_line: accumulate single bytes;
return buffer[:-2] on a trailing CRLF; return the whole buffer once it exceeds
1024 bytes; return None on closed stream or timeout.  Also returns the events
left unconsumed. -/
def ftp_receive_go (buf : List Nat) :
    List Recv → Option (List Nat) × List Recv
  | [] => (none, [])
  | .eof :: rest => (none, rest)
  | .timeout :: rest => (none, rest)
  | .byte b :: rest =>
    let buf2 := buf ++ [b]
    if endsWithCRLF buf2 then (some (buf2.dropLast.dropLast), rest)
    else if 1024 < buf2.length then (some buf2, rest)
    else ftp_receive_go buf2 rest

/-- FTPHoneypot._receive_line. -/
def ftp_receive_line (evs : List Recv) : Option (List Nat) × List Recv :=
  ftp_receive_go [] evs

/-- Whitespace bytes stripped by str.strip (ASCII range). -/
def isWsByte (b : Nat) : Bool :=
  b = 32 ∨ b = 9 ∨ b = 10 ∨ b = 13 ∨ b = 11 ∨ b = 12

/-- The .strip() applied by the Telnet reader, on bytes. -/
def stripBytes (l : List Nat) : List Nat :=
  ((l.dropWhile isWsByte).reverse.dropWhile isWsByte).reverse

/-- The drain loop the Telnet reader runs after seeing a CR or LF: it keeps
reading while it sees further CR/LF bytes, and the first other byte it reads is
discarded (the code comments that it cannot be pushed back); a timeout stops
the drain; a zero-length read leaves the stream at end of stream. -/
def telnet_drain : List Recv → List Recv
  | [] => []
  | .byte b :: rest =>
    if b = 10 ∨ b = 13 then telnet_drain rest else rest
  | .timeout :: rest => rest
  | .eof :: rest => .eof :: rest

/-- The read loop of TelnetHoneypot._receive_line: accumulate single bytes
with NO buffer size bound; on a CR or LF byte, strip the buffer and return it
after draining trailing CR/LF; return None on closed stream or timeout. -/
def telnet_receive_go (buf : List Nat) :
    List Recv → Option (List Nat) × List Recv
  | [] => (none, [])
  | .eof :: rest => (none, rest)
  | .timeout :: rest => (none, rest)
  | .byte b :: rest =>
    let buf2 := buf ++ [b]
    if b = 10 ∨ b = 13 then (some (stripBytes buf2), telnet_drain rest)
    else telnet_receive_go buf2 rest

/-- TelnetHoneypot._receive_line. -/
def telnet_receive_line (evs : List Recv) : Option (List Nat) × List Recv :=
  telnet_receive_go [] evs

/-! ## Pattern detector (src/threat_intel/correlators/pattern_detector.py)

Timestamps reach the detector as the ISO-8601 strings the honeypots store.
datetime.fromisoformat (Python standard library) is modelled below for the
shapes involved: date, optional T or space separator, HH:MM:SS time, optional
fractional seconds, optional +HH:MM or -HH:MM offset; any other input fails to
parse.  Points in time are exact rationals (seconds); Python float arithmetic
is modelled by exact rational arithmetic, and the float round function by
round-half-to-even on rationals. -/

/-- Value of an ASCII digit. -/
def digitVal (c : Char) : Option Nat :=
  if c.isDigit then some (c.toNat - 48) else none

/-- Parse exactly n digits into a number (accumulator form). -/
def parseNDigitsAux (acc : Nat) : Nat → List Char → Option (Nat × List Char)
  | 0, l => some (acc, l)
  | Nat.succ k, [] => none
  | Nat.succ k, c :: t =>
    match digitVal c with
    | none => none
    | some d => parseNDigitsAux (acc * 10 + d) k t

/-- Parse exactly n digits. -/
def parseNDigits (n : Nat) (l : List Char) : Option (Nat × List Char) :=
  parseNDigitsAux 0 n l

/-- Expect one given character. -/
def expectChar (c : Char) : List Char → Option (List Char)
  | [] => none
  | x :: t => if x = c then some t else none

/-- Gregorian leap year. -/
def isLeap (y : Nat) : Bool :=
  (y % 4 = 0 && y % 100 ≠ 0) || y % 400 = 0

/-- Days in a month. -/
def daysInMonth (y m : Nat) : Nat :=
  if m = 2 then (if isLeap y then 29 else 28)
  else if m = 4 ∨ m = 6 ∨ m = 9 ∨ m = 11 then 30
  else 31

/-- Days in the months of year y strictly before month m. -/
def daysBeforeMonth (y m : Nat) : Nat :=
  (List.range (m - 1)).foldl (fun acc i => acc + daysInMonth y (i + 1)) 0

/-- Days in the years strictly before year y (counting from year 1). -/
def daysBeforeYear (y : Nat) : Nat :=
  let n := y - 1
  365 * n + n / 4 - n / 100 + n / 400

/-- Ordinal day number of a date. -/
def toOrdinalDay (y m d : Nat) : Nat :=
  daysBeforeYear y + daysBeforeMonth y m + (d - 1)

/-- Parse the optional fractional-second part (a dot and one to six digits). -/
def parseFraction : List Char → Option (ℚ × List Char)
  | '.' :: t =>
    let ds := t.takeWhile Char.isDigit
    if ds.length = 0 ∨ 6 < ds.length then none
    else
      match parseNDigits ds.length t with
      | some (v, rest) => some ((v : ℚ) / ((10 : ℚ) ^ ds.length), rest)
      | none => none
  | l => some (0, l)

/-- Parse the optional UTC-offset suffix; returns (offset seconds, aware). -/
def parseOffset : List Char → Option (ℚ × Bool)
  | [] => some (0, false)
  | sgn :: t =>
    if sgn = '+' ∨ sgn = '-' then
      match parseNDigits 2 t with
      | some (oh, t1) =>
        match expectChar ':' t1 with
        | some t2 =>
          match parseNDigits 2 t2 with
          | some (om, []) =>
            if oh ≤ 23 ∧ om ≤ 59 then
              let secs : ℚ := (oh : ℚ) * 3600 + (om : ℚ) * 60
              some (if sgn = '-' then -secs else secs, true)
            else none
          | _ => none
        | none => none
      | none => none
    else none

/-- Parse HH:MM:SS with optional fraction and offset, given the seconds of the
date part; returns the UTC-normalized value and awareness. -/
def parseTimePart (dateSecs : ℚ) (l : List Char) : Option (ℚ × Bool) :=
  match parseNDigits 2 l with
  | none => none
  | some (h, l1) =>
    match expectChar ':' l1 with
    | none => none
    | some l2 =>
      match parseNDigits 2 l2 with
      | none => none
      | some (mi, l3) =>
        match expectChar ':' l3 with
        | none => none
        | some l4 =>
          match parseNDigits 2 l4 with
          | none => none
          | some (sec, l5) =>
            if h ≤ 23 ∧ mi ≤ 59 ∧ sec ≤ 59 then
              match parseFraction l5 with
              | none => none
              | some (frac, l6) =>
                match parseOffset l6 with
                | none => none
                | some (off, aware) =>
                  some (dateSecs + (h : ℚ) * 3600 + (mi : ℚ) * 60 +
                        (sec : ℚ) + frac - off, aware)
            else none

/-- datetime.fromisoformat: returns the point in time in seconds (UTC
normalized for aware inputs) together with the awareness flag, or none when
the string does not parse (Python raises ValueError). -/
def fromisoformat (s : String) : Option (ℚ × Bool) :=
  match parseNDigits 4 s.toList with
  | none => none
  | some (y, l1) =>
    match expectChar '-' l1 with
    | none => none
    | some l2 =>
      match parseNDigits 2 l2 with
      | none => none
      | some (mo, l3) =>
        match expectChar '-' l3 with
        | none => none
        | some l4 =>
          match parseNDigits 2 l4 with
          | none => none
          | some (d, l5) =>
            if 1 ≤ y ∧ 1 ≤ mo ∧ mo ≤ 12 ∧ 1 ≤ d ∧ d ≤ daysInMonth y mo then
              let dateSecs : ℚ := (toOrdinalDay y mo d : ℚ) * 86400
              match l5 with
              | [] => some (dateSecs, false)
              | sep :: t =>
                if sep = 'T' ∨ sep = ' ' then parseTimePart dateSecs t
                else none
            else none

/-- Python str.replace("Z", "+00:00") (the pattern is a single character). -/
def replaceZ (s : String) : String :=
  ⟨s.toList.foldr
    (fun c acc => (if c = 'Z' then "+00:00".toList else [c]) ++ acc) []⟩

/-- The timestamp handling at the top of PatternDetector._detect_brute_force:
a string value is parsed after the Z replacement (a failure raises ValueError);
a missing timestamp stays None and the later datetime subtraction raises
TypeError. -/
def parse_ts : Option String → Except String (ℚ × Bool)
  | none => .error "TypeError"
  | some s =>
    match fromisoformat (replaceZ s) with
    | none => .error "ValueError"
    | some t => .ok t

/-- datetime subtraction returning total_seconds(); mixing a naive and an
aware datetime raises TypeError. -/
def dt_sub (a b : ℚ × Bool) : Except String ℚ :=
  if a.2 = b.2 then .ok (a.1 - b.1) else .error "TypeError"

/-- Python round half-to-even, on rationals. -/
def bankersRound (x : ℚ) : ℤ :=
  let f := ⌊x⌋
  let r := x - (f : ℚ)
  if r < 1 / 2 then f
  else if 1 / 2 < r then f + 1
  else if f % 2 = 0 then f else f + 1

/-- Python round(x, 2). -/
def pyRound2 (x : ℚ) : ℚ := (bankersRound (x * 100) : ℚ) / 100

/-- Python round(x, 1). -/
def pyRound1 (x : ℚ) : ℚ := (bankersRound (x * 10) : ℚ) / 10

/-- A command entry as the detector reads it (c.get("timestamp"),
c.get("command", "")). -/
structure DCommandRec where
  timestamp : Option String := none
  command : String := ""
deriving DecidableEq, Repr

/-- A completed session record as handed to the detector.  source_ip and
start_time are set by every honeypot at connection accept, so they are plain
fields. -/
structure DSession where
  source_ip : String
  start_time : String
  auth_attempts : List AuthAttempt := []
  commands : List DCommandRec := []
deriving DecidableEq, Repr

/-- The indicators dictionary of each finding, typed per pattern. -/
inductive Indicators where
  | bruteForce (source_ip : String) (attempt_count : Nat)
      (unique_credentials : Nat) (attempt_rate_per_second : ℚ)
      (usernames : List (Option String))
  | credentialStuffing (source_ip : String) (total_attempts : Nat)
      (unique_credentials : Nat) (max_retries_per_credential : Nat)
      (sample_usernames : List (Option String))
  | reconnaissance (source_ip : String) (recon_commands : List String)
      (total_commands : Nat) (recon_percentage : ℚ)
  | automatedTools (detected_tools : List String) (total_commands : Nat)
      (suspicious_commands : List String)
  | distributed (ip_count : Nat) (source_ips : List String)
      (common_credentials : List (String × String × Nat))
deriving DecidableEq, Repr

/-- The AttackPattern dataclass. -/
structure AttackPattern where
  pattern_type : String
  severity : String
  description : String
  indicators : Indicators
  first_seen : Option String
  last_seen : Option String
  occurrence_count : Nat
  confidence_score : ℚ
deriving DecidableEq, Repr

/-- auth_attempts[0].get("timestamp") (callers guard nonemptiness). -/
def firstTs : List AuthAttempt → Option String
  | [] => none
  | a :: _ => a.timestamp

/-- auth_attempts[-1].get("timestamp"). -/
def lastTs (l : List AuthAttempt) : Option String :=
  match l.getLast? with
  | none => none
  | some a => a.timestamp

/-- commands[0].get("timestamp"). -/
def firstCmdTs : List DCommandRec → Option String
  | [] => none
  | c :: _ => c.timestamp

/-- commands[-1].get("timestamp"). -/
def lastCmdTs (l : List DCommandRec) : Option String :=
  match l.getLast? with
  | none => none
  | some c => c.timestamp

/-- Lines 119-131 of _detect_brute_force: the attempt-rate computation, which
can raise (returned as .error) on malformed or missing timestamps. -/
def brute_rate (atts : List AuthAttempt) : Except String ℚ :=
  if 2 ≤ atts.length then
    match parse_ts (firstTs atts) with
    | .error e => .error e
    | .ok first =>
      match parse_ts (lastTs atts) with
      | .error e => .error e
      | .ok last =>
        match dt_sub last first with
        | .error e => .error e
        | .ok duration => .ok ((atts.length : ℚ) / max duration 1)
  else .ok 0

/-- The severity ladder of _detect_brute_force. -/
def brute_severity (n : Nat) : String :=
  if 50 < n then "critical"
  else if 20 < n then "high"
  else if 10 < n then "medium"
  else "low"

/-- PatternDetector._detect_brute_force. -/
def detect_brute_force (ip : String) (atts : List AuthAttempt) :
    Except String (Option AttackPattern) :=
  if atts.length < 5 then .ok none
  else
    match brute_rate atts with
    | .error e => .error e
    | .ok rate =>
      let credentials := dedupFirst
        ((atts.filter (fun a => truthyOpt a.username && truthyOpt a.password)).map
          (fun a => (a.username, a.password)))
      .ok (some
        { pattern_type := "brute_force"
          severity := brute_severity atts.length
          description := "Brute force attack from " ++ ip ++ " with " ++
            toString atts.length ++ " attempts"
          indicators := .bruteForce ip atts.length credentials.length
            (pyRound2 rate) (dedupFirst (atts.map (·.username)))
          first_seen := firstTs atts
          last_seen := lastTs atts
          occurrence_count := atts.length
          confidence_score := min 100 ((atts.length : ℚ) * 2) })

/-- PatternDetector._detect_credential_stuffing. -/
def detect_credential_stuffing (ip : String) (atts : List AuthAttempt) :
    Option AttackPattern :=
  let credentials :=
    (atts.filter (fun a => truthyOpt a.username && truthyOpt a.password)).map
      (fun a => (a.username, a.password))
  if credentials.length < 10 then none
  else
    let uniq := dedupFirst credentials
    let max_retries := uniq.foldl (fun m k => max m (credentials.count k)) 0
    if 3 < max_retries then none
    else
      let unique_ratio : ℚ := (uniq.length : ℚ) / (credentials.length : ℚ)
      if unique_ratio < 7 / 10 then none
      else some
        { pattern_type := "credential_stuffing"
          severity := "high"
          description := "Credential stuffing from " ++ ip ++ " with " ++
            toString uniq.length ++ " unique credentials"
          indicators := .credentialStuffing ip credentials.length uniq.length
            max_retries (dedupFirst ((atts.take 10).map (·.username)))
          first_seen := firstTs atts
          last_seen := lastTs atts
          occurrence_count := credentials.length
          confidence_score := unique_ratio * 100 }

/-- The recon vocabulary of _detect_reconnaissance (a set iterated only
through `any`, so list order is immaterial). -/
def recon_vocab : List String :=
  ["whoami", "id", "uname", "hostname", "pwd", "ls", "cat /etc/passwd",
   "cat /proc/version", "ifconfig", "ip addr", "netstat", "ps aux",
   "w", "who", "last", "env", "printenv"]

/-- PatternDetector._detect_reconnaissance. -/
def detect_reconnaissance (ip : String) (commands : List DCommandRec) :
    Option AttackPattern :=
  let command_list := commands.map (·.command)
  let recon_matches := command_list.filter (fun cmd =>
    recon_vocab.any (fun r => containsSub r (pyStrip (toLowerStr cmd))))
  if recon_matches.length < 3 then none
  else some
    { pattern_type := "reconnaissance"
      severity := "medium"
      description := "Reconnaissance activity from " ++ ip
      indicators := .reconnaissance ip recon_matches command_list.length
        (pyRound1 ((recon_matches.length : ℚ) / (command_list.length : ℚ) * 100))
      first_seen := firstCmdTs commands
      last_seen := lastCmdTs commands
      occurrence_count := recon_matches.length
      confidence_score := min 100 ((recon_matches.length : ℚ) * 10) }

/-- The tool_signatures dict of _detect_automated_tools, in insertion order. -/
def tool_signatures : List (String × List String) :=
  [("metasploit", ["meterpreter", "msf", "payload"]),
   ("nmap", ["nmap", "ncat", "nc -"]),
   ("wget_curl", ["wget", "curl http"]),
   ("reverse_shell", ["bash -i", "/bin/sh", "/bin/bash", "nc -e"]),
   ("privilege_escalation", ["sudo -s", "su -", "sudo su"])]

/-- PatternDetector._detect_automated_tools. -/
def detect_automated_tools (commands : List DCommandRec) :
    Option AttackPattern :=
  let command_list := commands.map (·.command)
  let detected_tools := (tool_signatures.filter (fun ts =>
    command_list.any (fun cmd =>
      ts.2.any (fun sig => containsSub sig (toLowerStr cmd))))).map (·.1)
  if detected_tools.isEmpty then none
  else
    let all_sigs := tool_signatures.foldl (fun acc ts => acc ++ ts.2) []
    some
      { pattern_type := "automated_tools"
        severity := "high"
        description := "Automated attack tools detected: " ++
          String.intercalate ", " detected_tools
        indicators := .automatedTools detected_tools command_list.length
          (command_list.filter (fun cmd =>
            all_sigs.any (fun sig => containsSub sig (toLowerStr cmd))))
        first_seen := firstCmdTs commands
        last_seen := lastCmdTs commands
        occurrence_count := detected_tools.length
        confidence_score := min 100 ((detected_tools.length : ℚ) * 30) }

/-- PatternDetector.analyze_session.  The only step that can raise is the
brute-force timestamp parsing; an exception propagates out of the method
(there is no try/except in the detector). -/
def analyze_session (s : DSession) : Except String (List AttackPattern) :=
  let bf : Except String (List AttackPattern) :=
    if 5 < s.auth_attempts.length then
      match detect_brute_force s.source_ip s.auth_attempts with
      | .error e => .error e
      | .ok none => .ok []
      | .ok (some p) => .ok [p]
    else .ok []
  match bf with
  | .error e => .error e
  | .ok l1 =>
    let l2 := if s.auth_attempts.isEmpty then []
      else (detect_credential_stuffing s.source_ip s.auth_attempts).toList
    let l3 := if s.commands.isEmpty then []
      else (detect_reconnaissance s.source_ip s.commands).toList
    let l4 := if s.commands.isEmpty then []
      else (detect_automated_tools s.commands).toList
    .ok (l1 ++ l2 ++ l3 ++ l4)

/-- Add one (credential, ip) observation to the cred_to_ips map; keys keep
first-seen order (Python dict insertion order) and each value is a
duplicate-free ip list (Python set membership). -/
def add_cred (key : String × String) (ip : String) :
    List ((String × String) × List String) →
    List ((String × String) × List String)
  | [] => [(key, [ip])]
  | (k, ips) :: t =>
    if k = key then (k, if ip ∈ ips then ips else ips ++ [ip]) :: t
    else (k, ips) :: add_cred key ip t

/-- The credential-grouping loop of detect_distributed_attack: only attempts
with a truthy username and password contribute. -/
def cred_to_ips (sessions : List DSession) :
    List ((String × String) × List String) :=
  sessions.foldl (fun m s =>
    s.auth_attempts.foldl (fun m a =>
      match a.username, a.password with
      | some u, some p =>
        if u ≠ "" ∧ p ≠ "" then add_cred (u, p) s.source_ip m else m
      | _, _ => m) m) []

/-- The credentials used by at least 3 distinct source IPs. -/
def distributed_creds (sessions : List DSession) :
    List ((String × String) × List String) :=
  (cred_to_ips sessions).filter (fun e => 3 ≤ e.2.length)

/-- The union of the ip sets of all qualifying credentials. -/
def all_ips (sessions : List DSession) : List String :=
  dedupFirst ((distributed_creds sessions).foldl (fun acc e => acc ++ e.2) [])

/-- min over a nonempty string list, first minimum wins (Python min). -/
def listMinStr : List String → Option String
  | [] => none
  | a :: t => some (t.foldl (fun m s => if s < m then s else m) a)

/-- max over a nonempty string list, first maximum wins (Python max). -/
def listMaxStr : List String → Option String
  | [] => none
  | a :: t => some (t.foldl (fun m s => if m < s then s else m) a)

/-- PatternDetector.detect_distributed_attack. -/
def detect_distributed_attack (sessions : List DSession) :
    Option AttackPattern :=
  if sessions.length < 3 then none
  else
    let dc := distributed_creds sessions
    if dc.isEmpty then none
    else some
      { pattern_type := "distributed_attack"
        severity := "critical"
        description := "Distributed attack from " ++
          toString (all_ips sessions).length ++ " IPs using " ++
          toString dc.length ++ " common credentials"
        indicators := .distributed (all_ips sessions).length (all_ips sessions)
          ((dc.take 10).map (fun e => (e.1.1, takeStr 3 e.1.2 ++ "***", e.2.length)))
        first_seen := listMinStr (sessions.map (·.start_time))
        last_seen := listMaxStr (sessions.map (·.start_time))
        occurrence_count := dc.length
        confidence_score := min 100 (((all_ips sessions).length : ℚ) * 10) }

/-! ## HTTP honeypot attack-signature detection
(src/honeypot/services/http_honeypot.py, HTTPHoneypot._detect_attack_type)

The request is seen as the Flask path (without the leading slash, which the
method re-adds) and the raw query string.  Each check is a named boolean so
that the implementation and the spec-order refinement below share them
verbatim. -/

namespace HTTP

def sql_patterns : List String :=
  ["\x27 or \x271\x27=\x271", "union select", "select * from",
   "\x27; drop table", "or 1=1", "\x27 or \x27a\x27=\x27a"]

def xss_patterns : List String :=
  ["<script>", "javascript:", "onerror=", "onload=", "<img src="]

def cmd_patterns : List String := [";", "|", "`", "$(", "$\x7b"]

def webshell_sigs : List String := [".php", "shell", "c99", "r57", "webshell"]

def admin_sigs : List String := ["/admin", "/wp-admin", "/phpmyadmin"]

def config_sigs : List String := [".env", "config.", ".git", ".htaccess"]

/-- The lowered query variable of _detect_attack_type. -/
def queryLower (query_string : String) : String := toLowerStr query_string

/-- f"/\x7bpath\x7d". -/
def fullPath (path : String) : String := "/" ++ path

def sql_check (path query_string : String) : Bool :=
  sql_patterns.any (fun pat => containsSub pat (toLowerStr (queryLower query_string)))

def xss_check (path query_string : String) : Bool :=
  xss_patterns.any (fun pat => containsSub pat (toLowerStr (queryLower query_string)))

def traversal_check (path query_string : String) : Bool :=
  containsSub "../" (fullPath path) ||
  containsSub "..%2f" (toLowerStr (fullPath path))

def cmd_check (path query_string : String) : Bool :=
  cmd_patterns.any (fun pat => containsSub pat (queryLower query_string))

def webshell_check (path query_string : String) : Bool :=
  webshell_sigs.any (fun sig => containsSub sig (toLowerStr (fullPath path)))

def admin_check (path query_string : String) : Bool :=
  admin_sigs.any (fun sig => containsSub sig (toLowerStr (fullPath path)))

def config_check (path query_string : String) : Bool :=
  config_sigs.any (fun sig => containsSub sig (toLowerStr (fullPath path)))

/-- HTTPHoneypot._detect_attack_type: the if-chain exactly as written. -/
def detect_attack_type (path query_string : String) : Option String :=
  if sql_check path query_string then some "sql_injection"
  else if xss_check path query_string then some "xss"
  else if traversal_check path query_string then some "path_traversal"
  else if cmd_check path query_string then some "command_injection"
  else if webshell_check path query_string then some "webshell_access"
  else if admin_check path query_string then some "admin_probing"
  else if config_check path query_string then some "config_exposure"
  else none

/-- The precedence list stated by the spec: signatures in fixed order, first
match wins. -/
def attack_checks (path query_string : String) : List (String × Bool) :=
  [("sql_injection", sql_check path query_string),
   ("xss", xss_check path query_string),
   ("path_traversal", traversal_check path query_string),
   ("command_injection", cmd_check path query_string),
   ("webshell_access", webshell_check path query_string),
   ("admin_probing", admin_check path query_string),
   ("config_exposure", config_check path query_string)]

/-- First-match-wins over the precedence list (the spec reading). -/
def first_match (path query_string : String) : Option String :=
  ((attack_checks path query_string).find? (fun c => c.2)).map (·.1)

end HTTP

namespace Telnet

/-- The credential pairs the Telnet authentication loop completes: within the
attempt budget, successive (username line, password line) pairs as long as
both lines arrive and are nonempty; the extraction stops at the first falsy
read.  This is the spec-side description the loop is compared against. -/
def submitted_pairs : Nat → List (Option String) → List (String × String)
  | 0, _ => []
  | Nat.succ k, reads =>
    match read1 reads with
    | (some u, r1) =>
      if u = "" then []
      else
        match read1 r1 with
        | (some p, r2) =>
          if p = "" then [] else (u, p) :: submitted_pairs k r2
        | (none, _) => []
    | (none, _) => []

end Telnet

/-! ## Concrete inputs used by the claim instances -/

/-- A session with exactly 6 password attempts spanning 3 seconds. -/
def exBF6 : DSession :=
  { source_ip := "203.0.113.9"
    start_time := "2024-01-01T00:00:00"
    auth_attempts :=
      [{ timestamp := some "2024-01-01T00:00:00", username := some "root",
         password := some "pw1", success := false },
       { timestamp := some "2024-01-01T00:00:01", username := some "root",
         password := some "pw2", success := false },
       { timestamp := some "2024-01-01T00:00:01", username := some "root",
         password := some "pw3", success := false },
       { timestamp := some "2024-01-01T00:00:02", username := some "root",
         password := some "pw4", success := false },
       { timestamp := some "2024-01-01T00:00:02", username := some "root",
         password := some "pw5", success := false },
       { timestamp := some "2024-01-01T00:00:03", username := some "root",
         password := some "pw6", success := false }] }

/-- The finding expected for exBF6. -/
def exBF6pat : AttackPattern :=
  { pattern_type := "brute_force"
    severity := "low"
    description := "Brute force attack from 203.0.113.9 with 6 attempts"
    indicators := .bruteForce "203.0.113.9" 6 6 2 [some "root"]
    first_seen := some "2024-01-01T00:00:00"
    last_seen := some "2024-01-01T00:00:03"
    occurrence_count := 6
    confidence_score := 12 }

/-- exBF6 with the first timestamp replaced by a string that is not ISO-8601. -/
def exBadTs : DSession :=
  { source_ip := "203.0.113.9"
    start_time := "2024-01-01T00:00:00"
    auth_attempts :=
      { timestamp := some "not-a-timestamp", username := some "root",
        password := some "pw1", success := false } ::
      exBF6.auth_attempts.tail }

/-- One (admin, admin123) attempt as the distributed-attack example uses. -/
def exDistAtt : AuthAttempt :=
  { timestamp := some "2024-01-01T00:00:01", username := some "admin",
    password := some "admin123", success := false }

/-- Three sessions from three distinct IPs sharing one credential. -/
def exDist3 : List DSession :=
  [{ source_ip := "10.0.0.1", start_time := "2024-01-01T00:00:00",
     auth_attempts := [exDistAtt] },
   { source_ip := "10.0.0.2", start_time := "2024-01-01T00:00:05",
     auth_attempts := [exDistAtt] },
   { source_ip := "10.0.0.3", start_time := "2024-01-01T00:00:09",
     auth_attempts := [exDistAtt] }]

/-- The finding expected for exDist3. -/
def exDist3pat : AttackPattern :=
  { pattern_type := "distributed_attack"
    severity := "critical"
    description := "Distributed attack from 3 IPs using 1 common credentials"
    indicators := .distributed 3 ["10.0.0.1", "10.0.0.2", "10.0.0.3"]
      [("admin", "adm***", 3)]
    first_seen := some "2024-01-01T00:00:00"
    last_seen := some "2024-01-01T00:00:09"
    occurrence_count := 1
    confidence_score := 30 }

/-- Three sessions but only two distinct IPs sharing the credential. -/
def exDist2 : List DSession :=
  [{ source_ip := "10.0.0.1", start_time := "2024-01-01T00:00:00",
     auth_attempts := [exDistAtt] },
   { source_ip := "10.0.0.2", start_time := "2024-01-01T00:00:05",
     auth_attempts := [exDistAtt] },
   { source_ip := "10.0.0.1", start_time := "2024-01-01T00:00:09",
     auth_attempts := [exDistAtt] }]

/-! ## Helper lemmas -/

/-- Dispatching any command whose verb is PASS answers 530. -/
theorem ftp_dispatch_pass_resp (cmd arg now : String) (s : FTP.Session)
    (h : cmd = "PASS") :
    (FTP.handle_ftp_command cmd arg now s).2 = "530 Login incorrect\r\n" := by
  subst h; rfl

/-- Appending a byte other than 10 cannot produce a CRLF-terminated buffer. -/
theorem endsWithCRLF_append_ne10 (buf : List Nat) (b : Nat) (h : b ≠ 10) :
    endsWithCRLF (buf ++ [b]) = false := by
  have hb : ((10 : Nat) == b) = false := by
    simp only [beq_eq_false_iff_ne, ne_eq]
    exact fun hc => h hc.symm
  simp [endsWithCRLF, List.isSuffixOf, List.reverse_append, List.isPrefixOf, hb]

/-- Any line the FTP reader returns has at most 1025 bytes, provided the
accumulated buffer is within the 1024-byte bound. -/
theorem ftp_receive_go_bound :
    ∀ (evs : List Recv) (buf : List Nat), buf.length ≤ 1024 →
      ∀ (l : List Nat) (rem : List Recv),
        ftp_receive_go buf evs = (some l, rem) → l.length ≤ 1025 := by
  intro evs
  induction evs with
  | nil => intro buf hb l rem h; simp [ftp_receive_go] at h
  | cons e rest ih =>
    intro buf hb l rem h
    match e with
    | .eof => simp [ftp_receive_go] at h
    | .timeout => simp [ftp_receive_go] at h
    | .byte b =>
      simp only [ftp_receive_go] at h
      by_cases h1 : endsWithCRLF (buf ++ [b])
      · rw [if_pos h1] at h
        have hl : (buf ++ [b]).dropLast.dropLast = l := by
          have := congrArg Prod.fst h
          simpa using this
        have hdl : ((buf ++ [b]).dropLast.dropLast).length =
            buf.length + 1 - 1 - 1 := by
          simp [List.length_dropLast, List.length_append]
        rw [hl] at hdl
        omega
      · rw [if_neg h1] at h
        by_cases h2 : 1024 < (buf ++ [b]).length
        · rw [if_pos h2] at h
          have hl : buf ++ [b] = l := by
            have := congrArg Prod.fst h
            simpa using this
          have : l.length = buf.length + 1 := by
            rw [← hl]; simp [List.length_append]
          omega
        · rw [if_neg h2] at h
          exact ih (buf ++ [b]) (by simp [List.length_append] at h2 ⊢; omega)
            l rem h

/-- Feeding only 97-bytes, the FTP reader returns the full buffer exactly when
it first exceeds 1024 bytes. -/
theorem ftp_go_replicate97 :
    ∀ (n : Nat) (buf : List Nat), buf.length + n = 1025 → 0 < n →
      ftp_receive_go buf (List.replicate n (Recv.byte 97)) =
        (some (buf ++ List.replicate n 97), []) := by
  intro n
  induction n with
  | zero => intro buf h h0; exact absurd h0 (by omega)
  | succ m ih =>
    intro buf hlen hpos
    rw [List.replicate_succ]
    simp only [ftp_receive_go]
    rw [endsWithCRLF_append_ne10 buf 97 (by decide)]
    simp only [Bool.false_eq_true, if_false]
    by_cases hm : m = 0
    · subst hm
      have : 1024 < (buf ++ [97]).length := by
        simp [List.length_append]; omega
      rw [if_pos this]
      simp
    · have : ¬ 1024 < (buf ++ [97]).length := by
        simp [List.length_append]; omega
      rw [if_neg this]
      rw [ih (buf ++ [97]) (by simp [List.length_append]; omega) (by omega)]
      simp [List.replicate_succ]

/-- Without a CR or LF byte the Telnet reader never returns a line. -/
theorem telnet_receive_go_no_newline :
    ∀ (evs : List Recv) (buf : List Nat),
      (∀ b, Recv.byte b ∈ evs → b ≠ 10 ∧ b ≠ 13) →
      (telnet_receive_go buf evs).1 = none := by
  intro evs
  induction evs with
  | nil => intro buf h; simp [telnet_receive_go]
  | cons e rest ih =>
    intro buf h
    match e with
    | .eof => simp [telnet_receive_go]
    | .timeout => simp [telnet_receive_go]
    | .byte b =>
      have hb := h b (List.mem_cons_self _ _)
      simp only [telnet_receive_go]
      rw [if_neg (by omega : ¬ (b = 10 ∨ b = 13))]
      exact ih (buf ++ [b]) (fun c hc => h c (List.mem_cons_of_mem _ hc))

/-- The SSH transport driving check_auth_password: one record per pair, in
order, all with success = false, every call answered AUTH_FAILED. -/
theorem ssh_attempts_spec (now : String) (pairs : List (String × String))
    (st : SSH.ServerIface) :
    (SSH.password_attempts now pairs st).1.auth_attempts =
      st.auth_attempts ++ pairs.map (fun q =>
        { timestamp := some now, username := some q.1, password := some q.2,
          method := some "password", success := false })
    ∧ (SSH.password_attempts now pairs st).2 =
      List.replicate pairs.length SSH.AUTH_FAILED := by
  induction pairs generalizing st with
  | nil => simp [SSH.password_attempts]
  | cons q rest ih =>
    obtain ⟨u, p⟩ := q
    obtain ⟨h1, h2⟩ := ih (SSH.check_auth_password st now u p).1
    simp [SSH.check_auth_password] at h1 h2
    refine ⟨?_, ?_⟩
    · simp [SSH.password_attempts, SSH.check_auth_password, h1]
    · simp [SSH.password_attempts, SSH.check_auth_password, h2,
        List.replicate_succ]

/-- The Telnet authentication loop never allows access and records exactly the
completed nonempty credential pairs, in order, with success = false. -/
theorem telnet_auth_loop_spec (now banner : String) :
    ∀ (n : Nat) (reads : List (Option String)),
      (Telnet.auth_loop now banner n reads).allowed = false
      ∧ (Telnet.auth_loop now banner n reads).attempts =
        (Telnet.submitted_pairs n reads).map (fun q =>
          { timestamp := some now, username := some q.1, password := some q.2,
            success := false }) := by
  intro n
  induction n with
  | zero => intro reads; exact ⟨rfl, rfl⟩
  | succ k ih =>
    intro reads
    match reads with
    | [] => exact ⟨rfl, rfl⟩
    | none :: t => exact ⟨rfl, rfl⟩
    | some u :: t =>
      by_cases hu : u = ""
      · simp [Telnet.auth_loop, Telnet.submitted_pairs, Telnet.read1, hu]
      · match t with
        | [] =>
          simp [Telnet.auth_loop, Telnet.submitted_pairs, Telnet.read1, hu]
        | none :: t2 =>
          simp [Telnet.auth_loop, Telnet.submitted_pairs, Telnet.read1, hu]
        | some p :: t2 =>
          by_cases hp : p = ""
          · simp [Telnet.auth_loop, Telnet.submitted_pairs, Telnet.read1,
              hu, hp]
          · obtain ⟨ha, hb⟩ := ih t2
            simp [Telnet.auth_loop, Telnet.submitted_pairs, Telnet.read1,
              hu, hp, ha, hb]

/-- _handle_ftp_command only ever touches the username and auth_attempts
session fields; auth_attempts gains exactly one success = false record and
only for PASS. -/
theorem ftp_dispatch_effect (cmd arg now : String) (s : FTP.Session) :
    (FTP.handle_ftp_command cmd arg now s).1.authenticated = s.authenticated
    ∧ (FTP.handle_ftp_command cmd arg now s).1.commands = s.commands
    ∧ (FTP.handle_ftp_command cmd arg now s).1.auth_attempts =
        (if cmd = "PASS" then
          s.auth_attempts ++
            [{ timestamp := some now, username := s.username,
               password := some arg, success := false }]
        else s.auth_attempts) := by
  by_cases h1 : cmd = "USER"
  · subst h1; simp [FTP.handle_ftp_command]
  · by_cases h2 : cmd = "PASS"
    · subst h2; simp [FTP.handle_ftp_command]
    · by_cases h3 : cmd = "SYST"
      · subst h3; simp [FTP.handle_ftp_command]
      · by_cases h4 : cmd = "PWD"
        · subst h4; simp [FTP.handle_ftp_command]
        · by_cases h5 : cmd = "CWD"
          · subst h5; simp [FTP.handle_ftp_command]
          · by_cases h6 : cmd = "LIST"
            · subst h6; simp [FTP.handle_ftp_command]
            · by_cases h7 : cmd = "RETR"
              · subst h7; simp [FTP.handle_ftp_command]
              · by_cases h8 : cmd = "STOR"
                · subst h8; simp [FTP.handle_ftp_command]
                · by_cases h9 : cmd = "QUIT"
                  · subst h9; simp [FTP.handle_ftp_command]
                  · by_cases h10 : cmd = "TYPE"
                    · subst h10; simp [FTP.handle_ftp_command]
                    · simp only [FTP.handle_ftp_command, if_neg h1,
                        if_neg h2, if_neg h3, if_neg h4, if_neg h5,
                        if_neg h6, if_neg h7, if_neg h8, if_neg h9,
                        if_neg h10]
                      by_cases h11 : cmd = "PORT" ∨ cmd = "PASV" <;>
                        simp [h11]

/-- Projection form of ftp_dispatch_effect: authenticated is untouched. -/
theorem ftp_dispatch_authenticated (cmd arg now : String) (s : FTP.Session) :
    (FTP.handle_ftp_command cmd arg now s).1.authenticated =
      s.authenticated :=
  (ftp_dispatch_effect cmd arg now s).1

/-- Projection form of ftp_dispatch_effect: the auth_attempts update. -/
theorem ftp_dispatch_attempts (cmd arg now : String) (s : FTP.Session) :
    (FTP.handle_ftp_command cmd arg now s).1.auth_attempts =
      (if cmd = "PASS" then
        s.auth_attempts ++
          [{ timestamp := some now, username := s.username,
             password := some arg, success := false }]
      else s.auth_attempts) :=
  (ftp_dispatch_effect cmd arg now s).2.2

/-- The FTP command loop never sets authenticated and appends exactly one
success = false auth record per processed PASS command, in order, carrying the
submitted password. -/
theorem ftp_commands_auth_spec (now : String) :
    ∀ (lines : List (Option String)) (s : FTP.Session),
      (FTP.handle_commands now lines s).1.authenticated = s.authenticated
      ∧ (FTP.handle_commands now lines s).1.auth_attempts.map
            (fun a => (a.password, a.success)) =
          s.auth_attempts.map (fun a => (a.password, a.success)) ++
            ((FTP.handle_commands now lines s).2.filter
                (fun e => e.1.command = "PASS")).map
              (fun e => (some e.1.argument, false)) := by
  intro lines
  induction lines with
  | nil => intro s; simp [FTP.handle_commands]
  | cons l rest ih =>
    intro s
    match l with
    | none => simp [FTP.handle_commands]
    | some command =>
      by_cases hc : command = ""
      · simp [FTP.handle_commands, hc]
      · simp only [FTP.handle_commands, if_neg hc]
        by_cases hp0 : (splitWs1 (pyStrip command)).isEmpty
        · simp only [if_pos hp0]
          exact ih s
        · simp only [if_neg hp0]
          by_cases hq :
              toUpperStr ((splitWs1 (pyStrip command)).headD "") = "QUIT"
          · have hps : ¬ toUpperStr ((splitWs1 (pyStrip command)).headD "")
                = "PASS" := by rw [hq]; decide
            simp only [if_pos hq]
            refine ⟨?_, ?_⟩
            · rw [ftp_dispatch_authenticated]
            · rw [ftp_dispatch_attempts, if_neg hps,
                @List.filter_cons_of_neg (FTP.CommandRec × String)
                  (fun e => decide (e.1.command = "PASS")) _ _
                  (fun h => hps (of_decide_eq_true h)),
                List.filter_nil, List.map_nil, List.append_nil]
          · simp only [if_neg hq]
            refine ⟨?_, ?_⟩
            · rw [(ih _).1, ftp_dispatch_authenticated]
            · rw [(ih _).2, ftp_dispatch_attempts]
              by_cases hps :
                  toUpperStr ((splitWs1 (pyStrip command)).headD "") = "PASS"
              · rw [if_pos hps,
                  @List.filter_cons_of_pos (FTP.CommandRec × String)
                    (fun e => decide (e.1.command = "PASS")) _ _
                    (decide_eq_true hps),
                  List.map_append, List.map_cons, List.append_assoc]
                rfl
              · rw [if_neg hps,
                  @List.filter_cons_of_neg (FTP.CommandRec × String)
                    (fun e => decide (e.1.command = "PASS")) _ _
                    (fun h => hps (of_decide_eq_true h))]

/-! ## Claim theorems -/

/-- C1 counterexample: a Telnet peer that submits the username "admin" and
then an empty password line has submitted a credential pair, but the session
ends with no AuthAttempt recorded — the pair is not appended even once. -/
theorem telnet_empty_password_drops_attempt :
    (Telnet.handle_authentication "t" "login: "
        [some "admin", some ""]).attempts = []
    ∧ (Telnet.handle_authentication "t" "login: "
        [some "admin", some ""]).allowed = false := by
  exact ⟨rfl, rfl⟩

/-- C1 (amended): every recorded AuthAttempt has success = false,
authentication is always signalled as failed to the peer (SSH returns
AUTH_FAILED for password and publickey, Telnet returns False, FTP never sets
authenticated), and attempts are appended exactly once per submitted
credential pair in submission order — where for Telnet a pair counts as
submitted only when both its username and password lines arrive nonempty: an
empty or absent line ends the session without recording (see the
counterexample).  SSH: one record per check_auth_password call, in order.
Telnet: the records are exactly the completed nonempty pairs, in order.  FTP:
one record per processed PASS command, in order, carrying the submitted
password; no input can make a session authenticated. -/
theorem auth_always_fails_recorded_in_order :
    (∀ (now : String) (pairs : List (String × String)) (st : SSH.ServerIface),
        (SSH.password_attempts now pairs st).1.auth_attempts =
          st.auth_attempts ++ pairs.map (fun q =>
            { timestamp := some now, username := some q.1,
              password := some q.2, method := some "password",
              success := false })
        ∧ (SSH.password_attempts now pairs st).2 =
            List.replicate pairs.length SSH.AUTH_FAILED)
    ∧ SSH.AUTH_FAILED ≠ SSH.AUTH_SUCCESSFUL
    ∧ (∀ (now username key_type fp : String) (st : SSH.ServerIface),
        (SSH.check_auth_publickey st now username key_type fp).2 =
          SSH.AUTH_FAILED
        ∧ (SSH.check_auth_publickey st now username key_type fp).1.auth_attempts
          = st.auth_attempts ++
            [{ timestamp := some now, username := some username,
               method := some "publickey", key_type := some key_type,
               key_fingerprint := some fp, success := false }])
    ∧ (∀ (now banner : String) (reads : List (Option String)),
        (Telnet.handle_authentication now banner reads).allowed = false
        ∧ (Telnet.handle_authentication now banner reads).attempts =
            (Telnet.submitted_pairs 3 reads).map (fun q =>
              { timestamp := some now, username := some q.1,
                password := some q.2, success := false }))
    ∧ (∀ (now : String) (lines : List (Option String)) (s : FTP.Session),
        (FTP.handle_commands now lines s).1.authenticated = s.authenticated
        ∧ (FTP.handle_commands now lines s).1.auth_attempts.map
              (fun a => (a.password, a.success)) =
            s.auth_attempts.map (fun a => (a.password, a.success)) ++
              ((FTP.handle_commands now lines s).2.filter
                  (fun e => e.1.command = "PASS")).map
                (fun e => (some e.1.argument, false))) := by
  refine ⟨?_, by decide, ?_, ?_, ?_⟩
  · intro now pairs st; exact ssh_attempts_spec now pairs st
  · intro now username key_type fp st; exact ⟨rfl, rfl⟩
  · intro now banner reads; exact telnet_auth_loop_spec now banner 3 reads
  · intro now lines s; exact ftp_commands_auth_spec now lines s

/-- C3: in every Telnet session, after exactly 3 completed (nonempty) failed
credential pairs the loop sends the final rejection, returns False with the
remaining input untouched (no further line read), and the command phase is
never entered — the session record keeps an empty command list. -/
theorem telnet_three_failures_close :
    ∀ (now banner prompt u1 p1 u2 p2 u3 p3 : String)
      (rest : List (Option String)),
      u1 ≠ "" → p1 ≠ "" → u2 ≠ "" → p2 ≠ "" → u3 ≠ "" → p3 ≠ "" →
      (Telnet.handle_authentication now banner
          (some u1 :: some p1 :: some u2 :: some p2 :: some u3 :: some p3 ::
            rest)).rest = rest
      ∧ (Telnet.handle_authentication now banner
          (some u1 :: some p1 :: some u2 :: some p2 :: some u3 :: some p3 ::
            rest)).allowed = false
      ∧ (Telnet.handle_authentication now banner
          (some u1 :: some p1 :: some u2 :: some p2 :: some u3 :: some p3 ::
            rest)).attempts =
          [{ timestamp := some now, username := some u1, password := some p1,
             success := false },
           { timestamp := some now, username := some u2, password := some p2,
             success := false },
           { timestamp := some now, username := some u3, password := some p3,
             success := false }]
      ∧ (Telnet.handle_authentication now banner
          (some u1 :: some p1 :: some u2 :: some p2 :: some u3 :: some p3 ::
            rest)).sent.getLast? = some "Too many login failures\r\n"
      ∧ (Telnet.handle_connection now banner prompt
          (some u1 :: some p1 :: some u2 :: some p2 :: some u3 :: some p3 ::
            rest)).commands = [] := by
  intro now banner prompt u1 p1 u2 p2 u3 p3 rest h1 h2 h3 h4 h5 h6
  refine ⟨?_, ?_, ?_, ?_, ?_⟩ <;>
    simp [Telnet.handle_authentication, Telnet.handle_connection,
      Telnet.auth_loop, Telnet.read1, h1, h2, h3, h4, h5, h6]

/-- C3 witness: the theorem applied to three concrete failed attempts with
further input waiting behind them. -/
theorem telnet_three_failures_close_witness :
    ("root" : String) ≠ ""
    ∧ (Telnet.handle_authentication "t" "login: "
        (some "root" :: some "a" :: some "admin" :: some "b" ::
          some "user" :: some "c" :: [some "later"])).rest = [some "later"] := by
  have h := telnet_three_failures_close "t" "login: " "router> "
    "root" "a" "admin" "b" "user" "c" [some "later"]
    (by decide) (by decide) (by decide) (by decide) (by decide) (by decide)
  exact ⟨by decide, h.1⟩

/-- C2: for every FTP PASS command, whatever the argument content, the
response is the 530 Login incorrect line — both at the dispatch level
(_handle_ftp_command, for any argument and session state) and inside the
command loop (_handle_commands, for every processed command whose verb parses
to PASS). -/
theorem ftp_pass_always_530 :
    (∀ (arg now : String) (s : FTP.Session),
        (FTP.handle_ftp_command "PASS" arg now s).2 = "530 Login incorrect\r\n")
    ∧ ∀ (now : String) (lines : List (Option String)) (s : FTP.Session)
        (e : FTP.CommandRec × String),
        e ∈ (FTP.handle_commands now lines s).2 → e.1.command = "PASS" →
        e.2 = "530 Login incorrect\r\n" := by
  constructor
  · intro arg now s; rfl
  · intro now lines
    induction lines with
    | nil => intro s e he hp; simp [FTP.handle_commands] at he
    | cons l rest ih =>
      intro s e he hp
      match l with
      | none => simp [FTP.handle_commands] at he
      | some command =>
        by_cases hc : command = ""
        · simp [FTP.handle_commands, hc] at he
        · simp only [FTP.handle_commands, if_neg hc] at he
          by_cases hp0 : (splitWs1 (pyStrip command)).isEmpty
          · rw [if_pos hp0] at he; exact ih s e he hp
          · rw [if_neg hp0] at he
            by_cases hq :
                toUpperStr ((splitWs1 (pyStrip command)).headD "") = "QUIT"
            · rw [if_pos hq] at he
              simp only [List.mem_singleton] at he
              subst he
              simp only at hp
              rw [hq] at hp
              exact absurd hp (by decide)
            · rw [if_neg hq] at he
              simp only [List.mem_cons] at he
              cases he with
              | inl he =>
                subst he
                simp only at hp ⊢
                exact ftp_dispatch_pass_resp _ _ _ _ hp
              | inr he => exact ih _ e he hp

/-- C2 witness: in a session sending USER then PASS, the PASS command is in
the transcript and the theorem yields the 530 response for it. -/
theorem ftp_pass_always_530_witness :
    ((⟨⟨"t", "PASS", "password123"⟩, "530 Login incorrect\r\n"⟩ :
        FTP.CommandRec × String) ∈
      (FTP.handle_commands "t" [some "USER admin", some "PASS password123"]
        FTP.Session.init).2)
    ∧ (⟨⟨"t", "PASS", "password123"⟩, "530 Login incorrect\r\n"⟩ :
        FTP.CommandRec × String).2 = "530 Login incorrect\r\n" :=
  ⟨by decide,
   ftp_pass_always_530.2 "t" [some "USER admin", some "PASS password123"]
     FTP.Session.init _ (by decide) (by decide)⟩

/-- C10 (code_bug): the AuthAttempt logged for PASS carries the session
username field.  When a USER command preceded, that is the most recent USER
argument (second conjunct).  When no USER command was sent, the recorded
username is None — not "anonymous": the `session.get("username", "anonymous")`
default is dead because _handle_connection initializes the key to None (first
conjunct exhibits the divergence from the claim). -/
theorem ftp_pass_username_source :
    ((FTP.handle_ftp_command "PASS" "secret" "t0" FTP.Session.init).1.auth_attempts
      = [{ timestamp := some "t0", username := none, password := some "secret",
           success := false }])
    ∧ (∀ (u pw now : String) (s : FTP.Session),
        (FTP.handle_ftp_command "PASS" pw now
            (FTP.handle_ftp_command "USER" u now s).1).1.auth_attempts =
          s.auth_attempts ++
            [{ timestamp := some now, username := some u,
               password := some pw, success := false }]) := by
  exact ⟨rfl, fun u pw now s => rfl⟩

/-- C6: HTTP attack-signature detection equals first-match-wins over the fixed
precedence list (SQL injection, XSS, path traversal, command injection,
webshell access, admin probing, config exposure); in particular the request
path admin with query id=1&apos; OR &apos;1&apos;=&apos;1 (apostrophes as
written in the spec) classifies as sql_injection, not admin_probing. -/
theorem http_attack_precedence :
    (∀ (path query_string : String),
        HTTP.detect_attack_type path query_string =
          HTTP.first_match path query_string)
    ∧ HTTP.detect_attack_type "admin" "id=1\x27 OR \x271\x27=\x271" =
        some "sql_injection"
    ∧ HTTP.detect_attack_type "admin" "id=1\x27 OR \x271\x27=\x271" ≠
        some "admin_probing" := by
  refine ⟨?_, by decide, by decide⟩
  intro p q
  unfold HTTP.detect_attack_type HTTP.first_match HTTP.attack_checks
  cases hs : HTTP.sql_check p q <;>
  cases hx : HTTP.xss_check p q <;>
  cases ht : HTTP.traversal_check p q <;>
  cases hcm : HTTP.cmd_check p q <;>
  cases hw : HTTP.webshell_check p q <;>
  cases ha : HTTP.admin_check p q <;>
  cases hcf : HTTP.config_check p q <;>
  simp [List.find?, hs, hx, ht, hcm, hw, ha, hcf]

/-- C8 counterexample: the value _receive_line returns on stream closure
(zero-length read) is the same None it returns on timeout, for both the FTP
and the Telnet reader — the claimed distinctness fails. -/
theorem receive_line_eof_equals_timeout :
    (ftp_receive_line [Recv.eof]).1 = (ftp_receive_line [Recv.timeout]).1
    ∧ (telnet_receive_line [Recv.eof]).1 =
        (telnet_receive_line [Recv.timeout]).1 :=
  ⟨rfl, rfl⟩

/-- C8 (amended): on stream closure the line readers return the same None
sentinel as on timeout — a single sentinel, not a distinct end-of-stream
value — and that sentinel is distinct from any actually returned line,
including the empty line. -/
theorem receive_line_sentinel_shared :
    (ftp_receive_line [Recv.eof]).1 = none
    ∧ (ftp_receive_line [Recv.timeout]).1 = none
    ∧ (telnet_receive_line [Recv.eof]).1 = none
    ∧ (telnet_receive_line [Recv.timeout]).1 = none
    ∧ (ftp_receive_line [Recv.byte 13, Recv.byte 10]).1 = some []
    ∧ (ftp_receive_line [Recv.byte 13, Recv.byte 10]).1 ≠
        (ftp_receive_line [Recv.eof]).1
    ∧ (ftp_receive_line
        [Recv.byte 97, Recv.byte 98, Recv.byte 13, Recv.byte 10]).1 =
        some [97, 98] := by
  refine ⟨rfl, rfl, rfl, rfl, ?_, ?_, ?_⟩ <;> decide

/-- C9 counterexample: the Telnet reader has no 1024-byte bound: fed 1025
non-terminated bytes it returns no line at all (the buffer keeps growing until
a CR/LF, timeout or closure), instead of returning the accumulated buffer. -/
theorem telnet_reader_unbounded :
    (telnet_receive_line (List.replicate 1025 (Recv.byte 97))).1 = none := by
  apply telnet_receive_go_no_newline
  intro b hb
  have h97 : Recv.byte b = Recv.byte 97 := List.eq_of_mem_replicate hb
  injection h97 with h
  subst h
  exact ⟨by decide, by decide⟩

/-- C9 (amended): the 1024-byte leniency bound holds for the FTP reader —
every returned line has at most 1025 bytes, and 1025 non-terminated bytes are
returned as one completed chunk — but the Telnet reader has no size bound: it
returns a line only on a CR or LF byte, never because the buffer grew. -/
theorem line_reader_size_bound :
    (∀ (evs : List Recv) (l : List Nat) (rem : List Recv),
        ftp_receive_line evs = (some l, rem) → l.length ≤ 1025)
    ∧ ftp_receive_line (List.replicate 1025 (Recv.byte 97)) =
        (some (List.replicate 1025 97), [])
    ∧ ∀ (evs : List Recv),
        (∀ b, Recv.byte b ∈ evs → b ≠ 10 ∧ b ≠ 13) →
        (telnet_receive_line evs).1 = none :=
  ⟨fun evs l rem h => ftp_receive_go_bound evs [] (by simp) l rem h,
   ftp_go_replicate97 1025 [] (by simp) (by decide),
   fun evs h => telnet_receive_go_no_newline evs [] h⟩

/-- Any credential-stuffing finding carries that pattern type. -/
theorem stuffing_type (ip : String) (atts : List AuthAttempt)
    (p : AttackPattern) (h : detect_credential_stuffing ip atts = some p) :
    p.pattern_type = "credential_stuffing" := by
  simp only [detect_credential_stuffing] at h
  split at h
  · exact Option.noConfusion h
  · split at h
    · exact Option.noConfusion h
    · split at h
      · exact Option.noConfusion h
      · have hp := Option.some.inj h
        subst hp
        rfl

/-- Any reconnaissance finding carries that pattern type. -/
theorem recon_type (ip : String) (commands : List DCommandRec)
    (p : AttackPattern) (h : detect_reconnaissance ip commands = some p) :
    p.pattern_type = "reconnaissance" := by
  simp only [detect_reconnaissance] at h
  split at h
  · exact Option.noConfusion h
  · have hp := Option.some.inj h
    subst hp
    rfl

/-- Any automated-tools finding carries that pattern type. -/
theorem tools_type (commands : List DCommandRec)
    (p : AttackPattern) (h : detect_automated_tools commands = some p) :
    p.pattern_type = "automated_tools" := by
  simp only [detect_automated_tools] at h
  split at h
  · exact Option.noConfusion h
  · have hp := Option.some.inj h
    subst hp
    rfl

/-- When at least 5 attempts are present and the rate computation does not
raise, _detect_brute_force returns a finding with the severity ladder and
confidence min(100, 2n). -/
theorem brute_force_ok (ip : String) (atts : List AuthAttempt)
    (h5 : ¬ atts.length < 5) (r : Option AttackPattern)
    (h : detect_brute_force ip atts = .ok r) :
    ∃ p, r = some p ∧ p.pattern_type = "brute_force"
      ∧ p.severity = brute_severity atts.length
      ∧ p.confidence_score = min 100 ((atts.length : ℚ) * 2) := by
  cases hbr : brute_rate atts with
  | error e =>
    simp only [detect_brute_force, if_neg h5, hbr] at h
    exact Except.noConfusion h
  | ok rate =>
    simp only [detect_brute_force, if_neg h5, hbr] at h
    have hr := Except.ok.inj h
    exact ⟨_, hr.symm, rfl, rfl, rfl⟩

/-- Findings of the non-brute-force per-session detectors, as analyze_session
assembles them, never carry the brute_force pattern type. -/
theorem analyze_tail_not_brute (s : DSession) (p : AttackPattern)
    (hp : p ∈ ((if s.auth_attempts.isEmpty then []
        else (detect_credential_stuffing s.source_ip s.auth_attempts).toList) ++
      (if s.commands.isEmpty then []
        else (detect_reconnaissance s.source_ip s.commands).toList) ++
      (if s.commands.isEmpty then []
        else (detect_automated_tools s.commands).toList))) :
    ¬ p.pattern_type = "brute_force" := by
  intro hbt
  rcases List.mem_append.mp hp with hp0 | hp4
  · rcases List.mem_append.mp hp0 with hp2 | hp3
    · split at hp2
      · simp at hp2
      · rw [Option.mem_toList, Option.mem_def] at hp2
        have := stuffing_type _ _ _ hp2
        rw [this] at hbt
        exact absurd hbt (by decide)
    · split at hp3
      · simp at hp3
      · rw [Option.mem_toList, Option.mem_def] at hp3
        have := recon_type _ _ _ hp3
        rw [this] at hbt
        exact absurd hbt (by decide)
  · split at hp4
    · simp at hp4
    · rw [Option.mem_toList, Option.mem_def] at hp4
      have := tools_type _ _ hp4
      rw [this] at hbt
      exact absurd hbt (by decide)

/-- C4: analyze_session emits a brute_force finding exactly when the session
has more than 5 auth attempts (whenever analysis completes without raising);
every brute_force finding has the severity ladder critical for more than 50
attempts, high for more than 20, medium for more than 10, else low, and
confidence_score = min(100, 2 * attempts).  The concrete instance: a session
with exactly 6 attempts over 3 seconds yields exactly one finding, classified
brute_force with severity low, confidence_score 12 and an attempts-per-second
indicator of 2 (see exBF6pat). -/
theorem brute_force_classification :
    (∀ (s : DSession) (ps : List AttackPattern),
        analyze_session s = .ok ps →
          ((∃ p ∈ ps, p.pattern_type = "brute_force") ↔
            5 < s.auth_attempts.length)
          ∧ ∀ p ∈ ps, p.pattern_type = "brute_force" →
              p.severity =
                (if 50 < s.auth_attempts.length then "critical"
                 else if 20 < s.auth_attempts.length then "high"
                 else if 10 < s.auth_attempts.length then "medium"
                 else "low")
              ∧ p.confidence_score =
                  min 100 ((s.auth_attempts.length : ℚ) * 2))
    ∧ analyze_session exBF6 = .ok [exBF6pat] := by
  constructor
  · intro s ps h
    simp only [analyze_session] at h
    by_cases h5 : 5 < s.auth_attempts.length
    · rw [if_pos h5] at h
      cases hbf : detect_brute_force s.source_ip s.auth_attempts with
      | error e =>
        simp only [hbf] at h
        exact Except.noConfusion h
      | ok r =>
        obtain ⟨p0, hr, hty, hsev, hconf⟩ :=
          brute_force_ok s.source_ip s.auth_attempts (by omega) r hbf
        subst hr
        simp only [hbf] at h
        have hps := Except.ok.inj h
        subst hps
        constructor
        · exact ⟨fun _ => h5, fun _ =>
            ⟨p0, List.mem_append_left _ (List.mem_append_left _
              (List.mem_append_left _ (List.mem_singleton_self p0))), hty⟩⟩
        · intro p hp hbt
          rcases List.mem_append.mp hp with hp03 | hp4
          · rcases List.mem_append.mp hp03 with hp02 | hp3
            · rcases List.mem_append.mp hp02 with hp0 | hp2
              · rw [List.mem_singleton] at hp0
                subst hp0
                rw [hsev, hconf]
                exact ⟨rfl, rfl⟩
              · exact absurd hbt (analyze_tail_not_brute s p
                  (List.mem_append_left _ (List.mem_append_left _ hp2)))
            · exact absurd hbt (analyze_tail_not_brute s p
                (List.mem_append_left _ (List.mem_append_right _ hp3)))
          · exact absurd hbt (analyze_tail_not_brute s p
              (List.mem_append_right _ hp4))
    · rw [if_neg h5] at h
      simp only [List.nil_append] at h
      have hps := Except.ok.inj h
      subst hps
      constructor
      · constructor
        · rintro ⟨p, hp, hbt⟩
          rcases List.mem_append.mp hp with hp03 | hp4
          · rcases List.mem_append.mp hp03 with hp2 | hp3
            · exact absurd hbt (analyze_tail_not_brute s p
                (List.mem_append_left _ (List.mem_append_left _ hp2)))
            · exact absurd hbt (analyze_tail_not_brute s p
                (List.mem_append_left _ (List.mem_append_right _ hp3)))
          · exact absurd hbt (analyze_tail_not_brute s p
              (List.mem_append_right _ hp4))
        · intro hlen
          exact absurd hlen h5
      · intro p hp hbt
        rcases List.mem_append.mp hp with hp03 | hp4
        · rcases List.mem_append.mp hp03 with hp2 | hp3
          · exact absurd hbt (analyze_tail_not_brute s p
              (List.mem_append_left _ (List.mem_append_left _ hp2)))
          · exact absurd hbt (analyze_tail_not_brute s p
              (List.mem_append_left _ (List.mem_append_right _ hp3)))
        · exact absurd hbt (analyze_tail_not_brute s p
            (List.mem_append_right _ hp4))
  · with_unfolding_all rfl

/-- C4 witness: the classification applied to the 6-attempt session. -/
theorem brute_force_classification_witness :
    (∃ p ∈ [exBF6pat], p.pattern_type = "brute_force") ↔
      5 < exBF6.auth_attempts.length :=
  (brute_force_classification.1 exBF6 [exBF6pat]
    (by with_unfolding_all rfl)).1

/-- C5: detect_distributed_attack returns a finding exactly when the batch has
at least 3 sessions and some credential pair with both fields present (truthy)
was used by at least 3 distinct source IPs; every finding has severity
critical, confidence_score = min(100, 10 * distinct involved IPs), and
indicators listing at most the first 10 qualifying pairs with each password
redacted to its first 3 characters plus three asterisks.  Concretely,
(admin, admin123) used by exactly 3 distinct IPs yields the finding with
confidence_score 30, and only 2 distinct IPs yield no finding. -/
theorem distributed_attack_classification :
    (∀ (sessions : List DSession),
        (detect_distributed_attack sessions).isSome ↔
          (3 ≤ sessions.length ∧
            ∃ e ∈ cred_to_ips sessions, 3 ≤ e.2.length))
    ∧ (∀ (sessions : List DSession) (p : AttackPattern),
        detect_distributed_attack sessions = some p →
          p.pattern_type = "distributed_attack"
          ∧ p.severity = "critical"
          ∧ p.confidence_score = min 100 (((all_ips sessions).length : ℚ) * 10)
          ∧ p.indicators = .distributed (all_ips sessions).length
              (all_ips sessions)
              (((distributed_creds sessions).take 10).map
                (fun e => (e.1.1, takeStr 3 e.1.2 ++ "***", e.2.length))))
    ∧ detect_distributed_attack exDist3 = some exDist3pat
    ∧ detect_distributed_attack exDist2 = none := by
  refine ⟨?_, ?_, by with_unfolding_all rfl, by with_unfolding_all rfl⟩
  · intro sessions
    unfold detect_distributed_attack
    by_cases h3 : sessions.length < 3
    · simp only [if_pos h3, Option.isSome_none, Bool.false_eq_true, false_iff]
      rintro ⟨hlen, -⟩
      omega
    · rw [if_neg h3]
      by_cases he : (distributed_creds sessions).isEmpty
      · simp only [if_pos he, Option.isSome_none, Bool.false_eq_true,
          false_iff]
        rintro ⟨-, e, hmem, hlen⟩
        have hin : e ∈ distributed_creds sessions :=
          List.mem_filter.mpr ⟨hmem, by simpa using hlen⟩
        rw [List.isEmpty_iff.mp he] at hin
        simp at hin
      · rw [if_neg he]
        simp only [Option.isSome_some, true_iff]
        refine ⟨by omega, ?_⟩
        have hne : distributed_creds sessions ≠ [] := by
          intro hnil
          rw [hnil] at he
          simp at he
        obtain ⟨e, hmem⟩ := List.exists_mem_of_ne_nil _ hne
        have hf := List.mem_filter.mp hmem
        exact ⟨e, hf.1, by simpa using hf.2⟩
  · intro sessions p h
    unfold detect_distributed_attack at h
    by_cases h3 : sessions.length < 3
    · rw [if_pos h3] at h
      exact Option.noConfusion h
    · rw [if_neg h3] at h
      by_cases he : (distributed_creds sessions).isEmpty
      · rw [if_pos he] at h
        exact Option.noConfusion h
      · rw [if_neg he] at h
        have hp := Option.some.inj h
        subst hp
        exact ⟨rfl, rfl, rfl, rfl⟩

/-- C5 witness: the finding properties applied to the 3-IP batch. -/
theorem distributed_attack_classification_witness :
    exDist3pat.severity = "critical"
    ∧ exDist3pat.confidence_score =
        min 100 (((all_ips exDist3).length : ℚ) * 10) :=
  ⟨(distributed_attack_classification.2.1 exDist3 exDist3pat
      (by with_unfolding_all rfl)).2.1,
   (distributed_attack_classification.2.1 exDist3 exDist3pat
      (by with_unfolding_all rfl)).2.2.1⟩

/-- C7 (code_bug): a session whose auth-attempt timestamps include an
ISO-8601 string that fails to parse makes analyze_session raise (ValueError
from datetime.fromisoformat propagates out of _detect_brute_force; there is no
try/except in the detector), instead of skipping the record and continuing as
the specification requires. -/
theorem analyze_session_raises_on_bad_timestamp :
    analyze_session exBadTs = .error "ValueError"
    ∧ 5 < exBadTs.auth_attempts.length := by
  exact ⟨rfl, by decide⟩

/-- C9 witness: the bound applied to a concrete CRLF-terminated read, and the
Telnet no-size-return fact applied to a concrete single byte. -/
theorem line_reader_size_bound_witness :
    ([97] : List Nat).length ≤ 1025
    ∧ (telnet_receive_line [Recv.byte 97]).1 = none :=
  ⟨line_reader_size_bound.1 [Recv.byte 97, Recv.byte 13, Recv.byte 10]
     [97] [] (by decide),
   line_reader_size_bound.2.2 [Recv.byte 97] (by
     intro b hb
     simp only [List.mem_singleton] at hb
     injection hb with h
     subst h
     exact ⟨by decide, by decide⟩)⟩

end HPTI
